import Mathlib

/-!
Verification of the kolla stats callback plugin
(`plugins/callback/stats.py` of the ansible-collection-kolla repository).

The plugin is a listener with two lifecycle hooks:
`v2_playbook_on_no_hosts_remaining` records an early-exit flag, and
`v2_playbook_on_stats` builds a `Stats` record from the runtime's per-host
summaries, serializes it with `json.dumps` and writes it to the configured
path via `write_stats`.

Embedding conventions:
* The runtime's per-host results object (`stats` in the Python code) is
  modelled as an association list from host name to `HostSummary`;
  `stats.processed.keys()` is `keys`, `stats.summarize(h)` is `summarize`.
* Python's `sorted` on the host names is modelled with `List.insertionSort`
  under `String`'s order (code-point lexicographic, as in Python); since
  host names are distinct dictionary keys, any stable sorting algorithm
  yields the same list.
* Python truthiness of the integer counts `t['failures']` / `t['unreachable']`
  is the test `!= 0`.
* `json.dumps` with its defaults (item separator `", "`, key separator `": "`,
  `ensure_ascii=True`) is modelled by `Stats.to_json`; `to_bytes` is UTF-8
  encoding.
* The filesystem is a map from path to file contents; `makedirs_safe` and
  `open`/`write` failures are modelled by explicit outcome parameters, with
  the same control flow as the Python method.
-/

/-- A per-host task summary, as returned by the external runtime's
`stats.summarize(host)` capability: integer task counts.  The plugin reads
only the `failures` and `unreachable` entries, testing each for truthiness. -/
structure HostSummary where
  ok : Nat := 0
  failures : Nat := 0
  unreachable : Nat := 0
  changed : Nat := 0
  skipped : Nat := 0
  deriving DecidableEq, Repr

/-- The runtime's per-host results: an association list from host name to its
summary (Python dict keys are unique; claims that need uniqueness take it as a
hypothesis). -/
abbrev HostResults := List (String × HostSummary)

/-- Model of `stats.processed.keys()`: the host names of the mapping. -/
def keys (stats : HostResults) : List String :=
  stats.map Prod.fst

/-- Model of `stats.summarize(h)`: the summary recorded for host `h` (an
absent host summarizes to all-zero counts, as Ansible's
`AggregateStats.summarize` does). -/
def summarize (stats : HostResults) (h : String) : HostSummary :=
  (stats.lookup h).getD {}

/-- The `Stats` class: `num_failures`, `num_unreachable`, `failures`,
`unreachable`, `no_hosts_remaining`, with the constructor defaults of
`Stats.__init__`, in `__dict__` insertion order. -/
structure Stats where
  num_failures : Nat := 0
  num_unreachable : Nat := 0
  failures : List String := []
  unreachable : List String := []
  no_hosts_remaining : Bool := false
  deriving DecidableEq, Repr

/-- Lower-case hexadecimal digit, as used by `json.dumps` escape sequences. -/
def hexDigit (n : Nat) : Char :=
  if n < 10 then Char.ofNat (48 + n) else Char.ofNat (87 + n)

/-- A `\uXXXX` escape for a code unit, as produced by Python's json encoder. -/
def uEscape (n : Nat) : String :=
  "\\u" ++ String.mk [hexDigit (n / 4096 % 16), hexDigit (n / 256 % 16),
    hexDigit (n / 16 % 16), hexDigit (n % 16)]

/-- Escape one character the way `json.dumps` (with `ensure_ascii=True`) does:
short escapes for quote, backslash and the common control characters, `\uXXXX`
(with surrogate pairs beyond the BMP) for everything outside printable ASCII. -/
def jsonEscapeChar (c : Char) : String :=
  if c = '\\' then "\\\\"
  else if c = '\"' then "\\\""
  else if c = Char.ofNat 8 then "\\b"
  else if c = Char.ofNat 12 then "\\f"
  else if c = '\n' then "\\n"
  else if c = '\r' then "\\r"
  else if c = '\t' then "\\t"
  else if c.toNat < 32 ∨ c.toNat > 126 then
    if c.toNat < 65536 then uEscape c.toNat
    else
      uEscape (55296 + (c.toNat - 65536) / 1024) ++
        uEscape (56320 + (c.toNat - 65536) % 1024)
  else String.singleton c

/-- Rendering of a string value as `json.dumps` does it. -/
def jsonString (s : String) : String :=
  "\"" ++ String.join (s.data.map jsonEscapeChar) ++ "\""

/-- Rendering of a list of strings as `json.dumps` does it (default
separators). -/
def jsonStringList (l : List String) : String :=
  "[" ++ String.intercalate ", " (l.map jsonString) ++ "]"

/-- Rendering of a boolean as `json.dumps` does it. -/
def jsonBool (b : Bool) : String :=
  if b then "true" else "false"

/-- Model of `Stats.to_json`: `json.dumps(self.__dict__)` — a flat JSON object whose
five fields appear in the insertion order of `__init__`, rendered with
`json.dumps` default separators. -/
def Stats.to_json (s : Stats) : String :=
  "\x7b" ++ jsonString "num_failures" ++ ": " ++ toString s.num_failures ++
    ", " ++ jsonString "num_unreachable" ++ ": " ++ toString s.num_unreachable ++
    ", " ++ jsonString "failures" ++ ": " ++ jsonStringList s.failures ++
    ", " ++ jsonString "unreachable" ++ ": " ++ jsonStringList s.unreachable ++
    ", " ++ jsonString "no_hosts_remaining" ++ ": " ++ jsonBool s.no_hosts_remaining ++
    "\x7d"

/-- Model of `to_bytes`: UTF-8 encoding of the serialized text, as written
to disk. -/
def to_bytes (s : String) : ByteArray :=
  s.toUTF8

/-- The mutable state of `CallbackModule`: the configured output path (set by
`set_options`) and the early-exit flag. -/
structure CallbackModule where
  path : String
  no_hosts_remaining : Bool
  deriving DecidableEq, Repr

/-- Model of `CallbackModule.set_options`: stores the resolved `kolla_stats_path`
option and initializes `no_hosts_remaining` to `False`. -/
def set_options (kolla_stats_path : String) : CallbackModule :=
  { path := kolla_stats_path, no_hosts_remaining := false }

/-- Model of `CallbackModule.v2_playbook_on_no_hosts_remaining`: sets the
early-exit flag. -/
def v2_playbook_on_no_hosts_remaining (cb : CallbackModule) : CallbackModule :=
  { cb with no_hosts_remaining := true }

/-- Python's `<` on strings, on the underlying character lists: lexicographic
comparison of Unicode code points. -/
def charListLt : List Char → List Char → Bool
  | _, [] => false
  | [], _ :: _ => true
  | a :: as, b :: bs =>
    Nat.blt a.toNat b.toNat || (a.toNat == b.toNat && charListLt as bs)

/-- Python's `<=` on strings (the order `sorted` arranges host names by):
the negation of the reversed strict comparison. -/
def host_le (a b : String) : Bool :=
  !charListLt b.data a.data

/-- The host-name order as a relation, for use with `List.insertionSort`. -/
def hostLe (a b : String) : Prop :=
  host_le a b = true

instance : DecidableRel hostLe :=
  fun a b => inferInstanceAs (Decidable (host_le a b = true))

/-- One iteration of the `for h in hosts` loop of `v2_playbook_on_stats`:
summarize the host, and independently classify it as failed and as
unreachable (appending to the lists and bumping the counters). -/
def statsStep (stats : HostResults) (s : Stats) (h : String) : Stats :=
  let t := summarize stats h
  let s :=
    if t.failures != 0 then
      { s with num_failures := s.num_failures + 1, failures := s.failures ++ [h] }
    else s
  if t.unreachable != 0 then
    { s with num_unreachable := s.num_unreachable + 1, unreachable := s.unreachable ++ [h] }
  else s

/-- The `Stats` record built by `v2_playbook_on_stats`: start from the
constructor defaults with `no_hosts_remaining` taken from the module state,
then run the loop over the sorted host names. -/
def statsRecord (no_hosts_remaining : Bool) (stats : HostResults) : Stats :=
  let s : Stats := { no_hosts_remaining := no_hosts_remaining }
  let hosts := List.insertionSort hostLe (keys stats)
  hosts.foldl (statsStep stats) s

/-- The filesystem: file contents by path (`none` = no file). -/
abbrev FileSystemState := String → Option String

/-- Replace the contents at one path. -/
def setFile (fs : FileSystemState) (p : String) (contents : String) : FileSystemState :=
  fun q => if q = p then some contents else fs q

/-- The two error kinds `write_stats` can re-raise. -/
inductive StatsWriteError where
  | directoryCreation
  | fileWrite
  deriving DecidableEq, Repr

/-- Outcome of the open-and-write step of `write_stats`: success, `open`
raising before the file is touched, or `write` raising after `open` has
truncated the file. -/
inductive FileOutcome where
  | ok
  | openFail
  | writeFail
  deriving DecidableEq, Repr

/-- Model of `CallbackModule.write_stats`: first `makedirs_safe` on the parent
directory of `self.path` — on failure the error is logged and re-raised
before the output file is touched; then the file is opened with `wb+`
(truncating) and the whole buffer written in one call — on failure the error
is logged and re-raised.  `dirOk` and `fileOutcome` are the outcomes of the
two filesystem operations. -/
def write_stats (cb : CallbackModule) (buf : String) (fs : FileSystemState)
    (dirOk : Bool) (fileOutcome : FileOutcome) :
    FileSystemState × Option StatsWriteError :=
  if dirOk then
    match fileOutcome with
    | .ok => (setFile fs cb.path buf, none)
    | .openFail => (fs, some .fileWrite)
    | .writeFail => (setFile fs cb.path "", some .fileWrite)
  else
    (fs, some .directoryCreation)

/-- Model of `CallbackModule.v2_playbook_on_stats`: build the record from the stored
flag and the per-host results, serialize it and write it; the module state is
not modified (the method assigns no attribute of `self`).  Returns the
unchanged module state together with the effect of the write. -/
def v2_playbook_on_stats (cb : CallbackModule) (stats : HostResults)
    (fs : FileSystemState) (dirOk : Bool) (fileOutcome : FileOutcome) :
    CallbackModule × FileSystemState × Option StatsWriteError :=
  let s := statsRecord cb.no_hosts_remaining stats
  (cb, write_stats cb (Stats.to_json s) fs dirOk fileOutcome)

/-- Truthiness of the `failures` count of a host's summary. -/
def failedHost (stats : HostResults) (h : String) : Bool :=
  (summarize stats h).failures != 0

/-- Truthiness of the `unreachable` count of a host's summary. -/
def unreachableHost (stats : HostResults) (h : String) : Bool :=
  (summarize stats h).unreachable != 0

/-- The sorted host-name list the loop iterates over. -/
def sortedHosts (stats : HostResults) : List String :=
  List.insertionSort hostLe (keys stats)

example :
    statsRecord false
      [("c", { unreachable := 1 }), ("a", { ok := 1 }), ("b", { failures := 1 })] =
    { num_failures := 1, num_unreachable := 1, failures := ["b"],
      unreachable := ["c"], no_hosts_remaining := false } := by
  decide

example :
    Stats.to_json { num_failures := 1, failures := ["x"] } =
    "\x7b\"num_failures\": 1, \"num_unreachable\": 0, \"failures\": [\"x\"], \"unreachable\": [], \"no_hosts_remaining\": false\x7d" := by
  decide

theorem charListLt_iff (xs ys : List Char) : charListLt xs ys = true ↔ xs < ys := by
  induction xs generalizing ys with
  | nil =>
    cases ys with
    | nil =>
      simp only [charListLt, Bool.false_eq_true, false_iff]
      intro h
      exact List.Lex.not_nil_right _ _ h
    | cons b bs =>
      simp only [charListLt, true_iff]
      exact List.nil_lt_cons b bs
  | cons a as ih =>
    cases ys with
    | nil =>
      simp only [charListLt, Bool.false_eq_true, false_iff]
      intro h
      exact List.Lex.not_nil_right _ _ h
    | cons b bs =>
      simp only [charListLt, Bool.or_eq_true, Bool.and_eq_true, Nat.blt_eq, beq_iff_eq]
      constructor
      · rintro (hlt | ⟨he, hrec⟩)
        · exact List.Lex.rel hlt
        · have hab : a = b := Char.eq_of_val_eq (UInt32.ext he)
          subst hab
          exact List.Lex.cons ((ih bs).mp hrec)
      · intro h
        cases h with
        | cons h => exact Or.inr ⟨rfl, (ih bs).mpr h⟩
        | rel h => exact Or.inl h

theorem host_le_iff (a b : String) : hostLe a b ↔ a ≤ b := by
  show (!charListLt b.data a.data) = true ↔ ¬ b < a
  rw [Bool.not_eq_true', ← Bool.not_eq_true, charListLt_iff]
  exact not_congr String.lt_iff_toList_lt.symm

instance : IsTotal String hostLe :=
  ⟨fun a b => by rw [host_le_iff, host_le_iff]; exact le_total a b⟩

instance : IsTrans String hostLe :=
  ⟨fun a b c hab hbc => by
    rw [host_le_iff] at hab hbc ⊢
    exact le_trans hab hbc⟩

instance : IsAntisymm String hostLe :=
  ⟨fun a b hab hba => by
    rw [host_le_iff] at hab hba
    exact le_antisymm hab hba⟩

theorem foldl_statsStep (stats : HostResults) (hosts : List String) (s : Stats) :
    hosts.foldl (statsStep stats) s =
      { num_failures := s.num_failures + (hosts.filter (failedHost stats)).length,
        num_unreachable := s.num_unreachable + (hosts.filter (unreachableHost stats)).length,
        failures := s.failures ++ hosts.filter (failedHost stats),
        unreachable := s.unreachable ++ hosts.filter (unreachableHost stats),
        no_hosts_remaining := s.no_hosts_remaining } := by
  induction hosts generalizing s with
  | nil => simp
  | cons h hosts ih =>
    rw [List.foldl_cons, ih]
    by_cases hf : (summarize stats h).failures = 0 <;>
      by_cases hu : (summarize stats h).unreachable = 0 <;>
      simp [statsStep, failedHost, unreachableHost, List.filter_cons, hf, hu,
        List.append_assoc, Nat.add_assoc, Nat.add_comm 1]

theorem statsRecord_eq (nhr : Bool) (stats : HostResults) :
    statsRecord nhr stats =
      { num_failures := ((sortedHosts stats).filter (failedHost stats)).length,
        num_unreachable := ((sortedHosts stats).filter (unreachableHost stats)).length,
        failures := (sortedHosts stats).filter (failedHost stats),
        unreachable := (sortedHosts stats).filter (unreachableHost stats),
        no_hosts_remaining := nhr } := by
  rw [statsRecord]
  simp only [sortedHosts]
  rw [foldl_statsStep]
  simp

theorem sortedHosts_sorted (stats : HostResults) :
    List.Sorted hostLe (sortedHosts stats) :=
  List.sorted_insertionSort hostLe (keys stats)

theorem sortedHosts_perm (stats : HostResults) :
    List.Perm (sortedHosts stats) (keys stats) :=
  List.perm_insertionSort hostLe (keys stats)

theorem iterate_no_hosts_remaining (n : Nat) (cb : CallbackModule) :
    ((v2_playbook_on_no_hosts_remaining)^[n] cb).no_hosts_remaining =
      (cb.no_hosts_remaining || decide (0 < n)) := by
  induction n with
  | zero => simp
  | succ n ih =>
    rw [Function.iterate_succ_apply']
    simp [v2_playbook_on_no_hosts_remaining]

/-- Claim C1: for every per-host results mapping, the record built by
`v2_playbook_on_stats` satisfies `num_failures == length(failures)` and
`num_unreachable == length(unreachable)`. -/
theorem c1_counts_match_lengths (nhr : Bool) (stats : HostResults) :
    (statsRecord nhr stats).num_failures = (statsRecord nhr stats).failures.length ∧
    (statsRecord nhr stats).num_unreachable = (statsRecord nhr stats).unreachable.length := by
  rw [statsRecord_eq]
  exact ⟨rfl, rfl⟩

/-- Claim C2: for every per-host results mapping, in whatever iteration order its
keys are presented, the `failures` and `unreachable` lists of the record
built by `v2_playbook_on_stats` are in ascending lexicographic order of host
name (`String`'s linear order, which compares code points as Python does). -/
theorem c2_output_lists_sorted (nhr : Bool) (stats : HostResults) :
    List.Sorted (· ≤ ·) (statsRecord nhr stats).failures ∧
    List.Sorted (· ≤ ·) (statsRecord nhr stats).unreachable := by
  rw [statsRecord_eq]
  constructor <;>
  · refine List.Pairwise.imp (fun hab => (host_le_iff _ _).mp hab) ?_
    exact (sortedHosts_sorted stats).filter _

/-- Claim C3: starting from `set_options`, the `no_hosts_remaining` field of the
record built by `v2_playbook_on_stats` is `false` when
`v2_playbook_on_no_hosts_remaining` was never invoked and `true` when it was
invoked at least once, and invoking it again does not change the state
(it is idempotent). -/
theorem c3_no_hosts_remaining_flag (path : String) (n : Nat) (stats : HostResults) :
    (statsRecord
        ((v2_playbook_on_no_hosts_remaining)^[n] (set_options path)).no_hosts_remaining
        stats).no_hosts_remaining = decide (0 < n) ∧
    ∀ cb, v2_playbook_on_no_hosts_remaining (v2_playbook_on_no_hosts_remaining cb) =
      v2_playbook_on_no_hosts_remaining cb := by
  constructor
  · rw [statsRecord_eq, iterate_no_hosts_remaining]
    simp [set_options]
  · intro cb
    rfl

/-- Claim C6: if creating the parent directory of the configured path fails,
`write_stats` propagates the directory-creation error and leaves the whole
filesystem — in particular the output file — unchanged. -/
theorem c6_dir_failure_no_write (cb : CallbackModule) (buf : String)
    (fs : FileSystemState) (fileOutcome : FileOutcome) :
    write_stats cb buf fs false fileOutcome =
      (fs, some StatsWriteError.directoryCreation) :=
  rfl

/-- Claim C7: the counters count hosts, not tasks: `num_failures` is the number of
hosts whose summary has a nonzero `failures` count (each contributing exactly
one, however large the count), and `num_unreachable` likewise; concretely, a
single host with five failed tasks yields `num_failures = 1`. -/
theorem c7_counts_hosts_not_tasks (nhr : Bool) (stats : HostResults) :
    (statsRecord nhr stats).num_failures =
      ((keys stats).filter (failedHost stats)).length ∧
    (statsRecord nhr stats).num_unreachable =
      ((keys stats).filter (unreachableHost stats)).length ∧
    (statsRecord false [("a", { failures := 5 })]).num_failures = 1 := by
  rw [statsRecord_eq]
  refine ⟨?_, ?_, by decide⟩ <;>
    exact ((sortedHosts_perm stats).filter _).length_eq

/-- Claim C9: when the host-name keys are unique, each host appears at most once in
`failures` and at most once in `unreachable`: the lists are duplicate-free. -/
theorem c9_lists_duplicate_free (nhr : Bool) (stats : HostResults)
    (hnd : (keys stats).Nodup) :
    (statsRecord nhr stats).failures.Nodup ∧
    (statsRecord nhr stats).unreachable.Nodup := by
  rw [statsRecord_eq]
  have hs : (sortedHosts stats).Nodup := (sortedHosts_perm stats).nodup_iff.mpr hnd
  exact ⟨hs.filter _, hs.filter _⟩

theorem c9_lists_duplicate_free_witness :
    (keys [("b", { failures := 1 }), ("a", { unreachable := 1 })]).Nodup ∧
    ((statsRecord false [("b", { failures := 1 }), ("a", { unreachable := 1 })]).failures.Nodup ∧
     (statsRecord false [("b", { failures := 1 }), ("a", { unreachable := 1 })]).unreachable.Nodup) :=
  ⟨by decide, c9_lists_duplicate_free false _ (by decide)⟩

/-- Claim C10: the hook `v2_playbook_on_no_hosts_remaining` changes only the early-exit
flag, leaving the configured path unchanged; and `v2_playbook_on_stats`
returns the module state unchanged — flag and path — building its record
afresh instead of mutating recorder state. -/
theorem c10_frame (cb : CallbackModule) :
    (v2_playbook_on_no_hosts_remaining cb).path = cb.path ∧
    ∀ (stats : HostResults) (fs : FileSystemState) (dirOk : Bool)
      (fileOutcome : FileOutcome),
      (v2_playbook_on_stats cb stats fs dirOk fileOutcome).1 = cb :=
  ⟨rfl, fun _ _ _ _ => rfl⟩

/-- Claim C4: a host whose summary is truthy for both `failures` and `unreachable`
is put in both output lists (the two classifications are independent), and
the counters count it in both (their values are the list lengths, by
`statsRecord_eq`); in particular scenario C — host `z` failed and
unreachable, host `a` ok, no early exit — yields the record
`(1, 1, ["z"], ["z"], false)`. -/
theorem c4_both_classifications (nhr : Bool) (stats : HostResults) (h : String)
    (hmem : h ∈ keys stats) (hf : failedHost stats h = true)
    (hu : unreachableHost stats h = true) :
    h ∈ (statsRecord nhr stats).failures ∧
    h ∈ (statsRecord nhr stats).unreachable ∧
    statsRecord false [("z", { failures := 1, unreachable := 1 }), ("a", { ok := 1 })] =
      { num_failures := 1, num_unreachable := 1, failures := ["z"],
        unreachable := ["z"], no_hosts_remaining := false } := by
  rw [statsRecord_eq]
  have hs : h ∈ sortedHosts stats := (sortedHosts_perm stats).mem_iff.mpr hmem
  exact ⟨List.mem_filter.mpr ⟨hs, hf⟩, List.mem_filter.mpr ⟨hs, hu⟩, by decide⟩

theorem c4_both_classifications_witness :
    ("z" ∈ keys [("z", { failures := 1, unreachable := 1 }), ("a", { ok := 1 })]) ∧
    failedHost [("z", { failures := 1, unreachable := 1 }), ("a", { ok := 1 })] "z" = true ∧
    unreachableHost [("z", { failures := 1, unreachable := 1 }), ("a", { ok := 1 })] "z" = true ∧
    ("z" ∈ (statsRecord false
        [("z", { failures := 1, unreachable := 1 }), ("a", { ok := 1 })]).failures ∧
     "z" ∈ (statsRecord false
        [("z", { failures := 1, unreachable := 1 }), ("a", { ok := 1 })]).unreachable ∧
     statsRecord false [("z", { failures := 1, unreachable := 1 }), ("a", { ok := 1 })] =
       { num_failures := 1, num_unreachable := 1, failures := ["z"],
         unreachable := ["z"], no_hosts_remaining := false }) :=
  ⟨by decide, by decide, by decide,
    c4_both_classifications false _ "z" (by decide) (by decide) (by decide)⟩

/-- Claim C5: scenario A — hosts `a` ok, `b` failed, `c` unreachable, no early
exit — produces the record `(1, 1, ["b"], ["c"], false)`, whose `to_json`
serialization is the single flat JSON object with exactly the five fields in
declared order (the byte rendering below, with `json.dumps` default
separators, denotes exactly the JSON object stated in the spec); the full
`v2_playbook_on_stats` call writes that serialization to the configured
path. -/
theorem c5_scenario_a_serialization :
    statsRecord false
        [("c", { unreachable := 1 }), ("a", { ok := 1 }), ("b", { failures := 1 })] =
      { num_failures := 1, num_unreachable := 1, failures := ["b"],
        unreachable := ["c"], no_hosts_remaining := false } ∧
    Stats.to_json
        { num_failures := 1, num_unreachable := 1, failures := ["b"],
          unreachable := ["c"], no_hosts_remaining := false } =
      "\x7b\"num_failures\": 1, \"num_unreachable\": 1, \"failures\": [\"b\"], \"unreachable\": [\"c\"], \"no_hosts_remaining\": false\x7d" ∧
    (v2_playbook_on_stats (set_options "kolla_stats.json")
        [("c", { unreachable := 1 }), ("a", { ok := 1 }), ("b", { failures := 1 })]
        (fun _ => none) true FileOutcome.ok).2.1 "kolla_stats.json" =
      some "\x7b\"num_failures\": 1, \"num_unreachable\": 1, \"failures\": [\"b\"], \"unreachable\": [\"c\"], \"no_hosts_remaining\": false\x7d" :=
  ⟨by decide, by decide, by decide⟩

/-- The observation `v2_playbook_on_stats` makes of one host's summary:
whether its `failures` count is truthy and whether its `unreachable` count
is truthy.  Two per-host results mappings are equal "as key-to-booleans
mappings" when these views agree for every key. -/
def truthyView : Option HostSummary → Option (Bool × Bool) :=
  Option.map fun t => (t.failures != 0, t.unreachable != 0)

theorem lookup_isSome_iff (stats : HostResults) (k : String) :
    (stats.lookup k).isSome = true ↔ k ∈ keys stats := by
  induction stats with
  | nil => simp [keys]
  | cons e es ih =>
    obtain ⟨a, t⟩ := e
    rw [List.lookup_cons]
    cases hba : (k == a) with
    | true =>
      rw [beq_iff_eq] at hba
      simp [keys, hba]
    | false =>
      rw [beq_eq_false_iff_ne] at hba
      simp only [keys, List.map_cons, List.mem_cons]
      simp [ih, keys, hba]

/-- Claim C8: determinism of finalization — two runs over per-host results
mappings that are equal as key-to-booleans mappings (same unique keys, same
truthiness of `failures` and `unreachable` per key, in any list order) and
with equal `no_hosts_remaining` flags serialize to byte-for-byte identical
JSON. -/
theorem c8_deterministic_serialization (nhr : Bool) (stats1 stats2 : HostResults)
    (hnd1 : (keys stats1).Nodup) (hnd2 : (keys stats2).Nodup)
    (hmap : ∀ k, truthyView (stats1.lookup k) = truthyView (stats2.lookup k)) :
    to_bytes (Stats.to_json (statsRecord nhr stats1)) =
      to_bytes (Stats.to_json (statsRecord nhr stats2)) := by
  have hmem : ∀ k, k ∈ keys stats1 ↔ k ∈ keys stats2 := by
    intro k
    rw [← lookup_isSome_iff, ← lookup_isSome_iff]
    have hsome := congrArg Option.isSome (hmap k)
    simp only [truthyView, Option.isSome_map'] at hsome
    rw [hsome]
  have hperm : List.Perm (keys stats1) (keys stats2) :=
    (List.perm_ext_iff_of_nodup hnd1 hnd2).mpr hmem
  have hsorted : sortedHosts stats1 = sortedHosts stats2 := by
    refine List.eq_of_perm_of_sorted (r := hostLe) ?_
      (sortedHosts_sorted stats1) (sortedHosts_sorted stats2)
    exact ((sortedHosts_perm stats1).trans hperm).trans (sortedHosts_perm stats2).symm
  have hview : ∀ x ∈ sortedHosts stats1,
      ((summarize stats1 x).failures != 0) = ((summarize stats2 x).failures != 0) ∧
      ((summarize stats1 x).unreachable != 0) = ((summarize stats2 x).unreachable != 0) := by
    intro x hx
    have hx1 : x ∈ keys stats1 := (sortedHosts_perm stats1).subset hx
    obtain ⟨t1, e1⟩ := Option.isSome_iff_exists.mp ((lookup_isSome_iff stats1 x).mpr hx1)
    obtain ⟨t2, e2⟩ := Option.isSome_iff_exists.mp
      ((lookup_isSome_iff stats2 x).mpr ((hmem x).mp hx1))
    have hvx := hmap x
    rw [e1, e2] at hvx
    simp only [truthyView, Option.map_some', Option.some.injEq, Prod.mk.injEq] at hvx
    simp [summarize, e1, e2, hvx.1, hvx.2]
  have hfail : ∀ x ∈ sortedHosts stats1, failedHost stats1 x = failedHost stats2 x := by
    intro x hx
    exact (hview x hx).1
  have hunreach : ∀ x ∈ sortedHosts stats1,
      unreachableHost stats1 x = unreachableHost stats2 x := by
    intro x hx
    exact (hview x hx).2
  have hrec : statsRecord nhr stats1 = statsRecord nhr stats2 := by
    rw [statsRecord_eq, statsRecord_eq, ← hsorted,
      List.filter_congr hfail, List.filter_congr hunreach]
  rw [hrec]

theorem c8_deterministic_serialization_witness :
    (keys [("b", { failures := 2 }), ("a", { unreachable := 1 })]).Nodup ∧
    (keys [("a", { unreachable := 3 }), ("b", { failures := 1 })]).Nodup ∧
    to_bytes (Stats.to_json (statsRecord false
        [("b", { failures := 2 }), ("a", { unreachable := 1 })])) =
      to_bytes (Stats.to_json (statsRecord false
        [("a", { unreachable := 3 }), ("b", { failures := 1 })])) :=
  ⟨by decide, by decide,
    c8_deterministic_serialization false _ _ (by decide) (by decide) (by
      intro k
      by_cases hb : k = "b"
      · subst hb
        rfl
      · by_cases ha : k = "a"
        · subst ha
          rfl
        · have hb' : (k == "b") = false := beq_eq_false_iff_ne.mpr hb
          have ha' : (k == "a") = false := beq_eq_false_iff_ne.mpr ha
          simp [List.lookup_cons, hb', ha'])⟩
